import Mathlib

/-!
Shallow embedding of the `api-gateway` crate (src/crates/api-gateway):
configuration validation (`src/config.rs`), the request-id middleware
(`src/lib.rs`), and the timeout guard / error mapper (`src/main.rs`).

Machine integers (`u16`, `u64`) are modelled as `Nat`; no arithmetic in the
embedded code can overflow, so no modular reduction is needed.  `HashMap`
iteration over `upstreams` is modelled as a list of key/value pairs in an
arbitrary iteration order.  `url::Url::parse` is an external crate and is
passed in as a parameter `parse : UrlParser`; the validator only inspects
whether parsing succeeded, the scheme of the result, and the error's
rendered message, which is exactly what the parameter exposes.
-/

namespace Gateway

/-- Result view of `url::Url` that the gateway inspects: only the scheme. -/
structure Url where
  scheme : String
deriving DecidableEq, Repr

/-- `url::Url::parse : &str -> Result<Url, ParseError>`, with the error
rendered to its display string (as `format!("{}", e)` does in the source). -/
def UrlParser : Type := String → Except String Url

/-- `AppConfigRaw` (src/config.rs): raw configuration before validation. -/
structure AppConfigRaw where
  host : String
  port : Nat
  request_timeout_ms : Nat
  upstreams : List (String × String)
  cors_origins : List String
deriving DecidableEq, Repr

/-- `AppConfig` (src/config.rs): validated configuration. -/
structure AppConfig where
  host : String
  port : Nat
  request_timeout_ms : Nat
  upstreams : List (String × String)
  cors_origins : List String
deriving DecidableEq, Repr

/-- `ConfigError` (src/config.rs). The `Config` variant wraps an underlying
source-parse error, rendered to a string. -/
inductive ConfigError where
  | Config : String → ConfigError
  | Message : String → ConfigError
  | InvalidPort : Nat → ConfigError
  | InvalidTimeout : Nat → ConfigError
  | InvalidUpstreamUrl : String → String → ConfigError
  | InvalidCorsOrigin : String → ConfigError
deriving DecidableEq, Repr

-- ============================================================================
-- Default values (src/config.rs lines 80-98)
-- ============================================================================

def default_host : String := ""

def default_port : Nat := 3000

def default_timeout_ms : Nat := 15000

def default_upstreams : List (String × String) := []

def default_cors_origins : List String := ["*"]

/-- The raw configuration produced when no file and no environment values are
supplied: every field takes its serde default. -/
def defaultRaw : AppConfigRaw :=
  { host := default_host
    port := default_port
    request_timeout_ms := default_timeout_ms
    upstreams := default_upstreams
    cors_origins := default_cors_origins }

-- ============================================================================
-- validate_and_convert (src/config.rs lines 154-210)
-- ============================================================================

/-- Body of the upstream-validation loop (src/config.rs lines 166-183) for a
single `(service_name, url_str)` entry: `Url::parse` failure yields
`InvalidUpstreamUrl(name, "Invalid URL format: {e}")`; a parsed URL whose
scheme is not `http`/`https` yields
`InvalidUpstreamUrl(name, "URL must use http or https scheme")`.
The source calls `Url::parse` twice on the same string; since parsing is a
pure function of the string both calls agree, and the two `if let` arms are
rendered as one `match`. -/
def checkUpstream (parse : UrlParser) (service_name url_str : String) :
    Option ConfigError :=
  match parse url_str with
  | .error e =>
      some (.InvalidUpstreamUrl service_name ("Invalid URL format: " ++ e))
  | .ok url =>
      if url.scheme = "http" ∨ url.scheme = "https" then none
      else some (.InvalidUpstreamUrl service_name
        "URL must use http or https scheme")

/-- The upstream-validation loop over the iteration order of
`raw.upstreams`: returns the first error, if any (the source `return`s from
inside the `for`). -/
def checkUpstreams (parse : UrlParser) :
    List (String × String) → Option ConfigError
  | [] => none
  | (n, u) :: rest =>
      match checkUpstream parse n u with
      | some e => some e
      | none => checkUpstreams parse rest

/-- Body of the CORS-origin loop (src/config.rs lines 186-201) for a single
origin: empty string yields `InvalidCorsOrigin("CORS origin cannot be
empty")`; a non-`"*"` origin that fails `Url::parse` yields
`InvalidCorsOrigin("Invalid origin URL: {e}")`. -/
def checkCorsOrigin (parse : UrlParser) (origin : String) :
    Option ConfigError :=
  if origin.isEmpty then
    some (.InvalidCorsOrigin "CORS origin cannot be empty")
  else if origin ≠ "*" then
    match parse origin with
    | .error e => some (.InvalidCorsOrigin ("Invalid origin URL: " ++ e))
    | .ok _ => none
  else none

/-- The CORS-origin loop over `raw.cors_origins`, first error wins. -/
def checkCorsOrigins (parse : UrlParser) : List String → Option ConfigError
  | [] => none
  | o :: rest =>
      match checkCorsOrigin parse o with
      | some e => some e
      | none => checkCorsOrigins parse rest

/-- `AppConfig::validate_and_convert` (src/config.rs lines 154-210). -/
def validate_and_convert (parse : UrlParser) (raw : AppConfigRaw) :
    Except ConfigError AppConfig :=
  if raw.port = 0 then
    .error (.InvalidPort raw.port)
  else if raw.request_timeout_ms = 0 ∨ raw.request_timeout_ms > 300000 then
    .error (.InvalidTimeout raw.request_timeout_ms)
  else
    match checkUpstreams parse raw.upstreams with
    | some e => .error e
    | none =>
        match checkCorsOrigins parse raw.cors_origins with
        | some e => .error e
        | none =>
            .ok { host := raw.host
                  port := raw.port
                  request_timeout_ms := raw.request_timeout_ms
                  upstreams := raw.upstreams
                  cors_origins := raw.cors_origins }

-- ============================================================================
-- AppConfig utility methods (src/config.rs lines 217-245)
-- ============================================================================

/-- `AppConfig::addr` (src/config.rs lines 221-227). -/
def AppConfig.addr (c : AppConfig) : String :=
  if c.host.isEmpty then "0.0.0.0:" ++ toString c.port
  else c.host ++ ":" ++ toString c.port

-- ============================================================================
-- UUID v4 generation (uuid crate, used by src/lib.rs line 24)
-- ============================================================================

/-- Lowercase hexadecimal digit, as the `uuid` crate renders:
0-9 then a-f. -/
def hexDigit (n : Nat) : Char :=
  if n < 10 then Char.ofNat (48 + n) else Char.ofNat (87 + n)

/-- Two-character lowercase hex rendering of one byte. -/
def byteToHex (b : Nat) : List Char :=
  [hexDigit (b / 16 % 16), hexDigit (b % 16)]

def bytesToHex (bs : List Nat) : List Char :=
  bs.flatMap byteToHex

/-- Byte `i` of the 128-bit random input `r` (little-endian indexing;
which end is "first" is irrelevant to the format properties proved). -/
def uuidByte (r i : Nat) : Nat := r / 256 ^ i % 256

/-- `Uuid::new_v4` byte content: 16 random bytes with the version nibble of
byte 6 forced to 4 (`(b & 0x0f) | 0x40`) and the two top bits of byte 8
forced to `10` (`(b & 0x3f) | 0x80`), per RFC 4122 as implemented by the
`uuid` crate's `Builder::from_random_bytes`. -/
def uuidV4Bytes (r : Nat) : List Nat :=
  (List.range 16).map fun i =>
    if i = 6 then uuidByte r i % 16 + 64
    else if i = 8 then uuidByte r i % 64 + 128
    else uuidByte r i

/-- Canonical hyphenated rendering (`Uuid::to_string`): byte groups of sizes
4-2-2-2-6 in hex, joined by `-`. -/
def formatUuid (bs : List Nat) : String :=
  String.mk (bytesToHex (bs.take 4)) ++ "-" ++
  String.mk (bytesToHex ((bs.drop 4).take 2)) ++ "-" ++
  String.mk (bytesToHex ((bs.drop 6).take 2)) ++ "-" ++
  String.mk (bytesToHex ((bs.drop 8).take 2)) ++ "-" ++
  String.mk (bytesToHex (bs.drop 10))

/-- `Uuid::new_v4().to_string()` for random input `r`. -/
def uuidV4ToString (r : Nat) : String := formatUuid (uuidV4Bytes r)

-- ============================================================================
-- request_id_middleware (src/lib.rs lines 17-42)
-- ============================================================================

/-- `http::HeaderValue::to_str` accepts a byte iff it is visible ASCII,
space, or horizontal tab (the `http` crate's `is_visible_ascii`:
`b >= 32 && b < 127 || b == b'\t'`). -/
def isVisibleAscii (b : Nat) : Bool := (32 ≤ b && b < 127) || b == 9

/-- `HeaderValue::to_str().ok()`: `some` of the bytes decoded as ASCII
characters when every byte passes `isVisibleAscii`, `none` otherwise. -/
def headerToStr (bytes : List Nat) : Option String :=
  if bytes.all isVisibleAscii then some (String.mk (bytes.map Char.ofNat))
  else none

/-- Observable effect of `request_id_middleware`: the correlation id stored
in the request extensions and the value written onto the response
`x-request-id` header (the source stores and writes the same `request_id`). -/
structure RequestIdResult where
  contextId : String
  responseHeaderId : String
deriving DecidableEq, Repr

/-- `request_id_middleware` (src/lib.rs lines 17-42). `header` is the raw
byte value of the request's `x-request-id` header (`none` when absent);
`freshId` stands for the `Uuid::new_v4().to_string()` this request would
draw (instantiate with `uuidV4ToString r`). The inner handler is irrelevant
to the id plumbing and is elided. -/
def request_id_middleware (header : Option (List Nat)) (freshId : String) :
    RequestIdResult :=
  let request_id :=
    ((header.bind fun h => headerToStr h).map id).getD freshId
  { contextId := request_id, responseHeaderId := request_id }

-- ============================================================================
-- Timeout guard and error mapper (src/main.rs lines 37-96)
-- ============================================================================

/-- `ServiceError` (src/main.rs lines 52-55). `tower::timeout::error::Elapsed`
is a unit-like struct; `Other` carries the boxed error rendered to its
display string. -/
inductive ServiceError where
  | Timeout : ServiceError
  | Other : String → ServiceError
deriving DecidableEq, Repr

/-- A handler future abstracted for the timeout race: the wall-clock
milliseconds it needs before producing its value, and that eventual value.
This is the shallow model of the only timing-dependent construct,
`tokio::time::timeout`'s race between handler completion and the deadline. -/
structure TimedFuture (T : Type) where
  completionTime : Nat
  value : T

/-- `tokio::time::timeout(duration, future)`: `Ok` with the future's output
if it completes within the deadline, `Err(Elapsed)` if the deadline fires
first (the pending future is dropped, so its value is discarded). -/
def tokioTimeout {T : Type} (duration : Nat) (f : TimedFuture T) :
    Except Unit T :=
  if f.completionTime ≤ duration then .ok f.value else .error ()

/-- `with_timeout` (src/main.rs lines 37-44). -/
def with_timeout {T : Type} (duration : Nat) (f : TimedFuture T) :
    Except ServiceError T :=
  (tokioTimeout duration f).mapError fun _ => ServiceError.Timeout

/-- Wire-level body of a response: the handler's payload on success, or the
JSON error envelope `{"error": _, "message": _, "status": _}` with its three
fields. -/
inductive ResponseBody (T : Type) where
  | payload : T → ResponseBody T
  | errorJson : String → String → Nat → ResponseBody T
deriving DecidableEq, Repr

structure Response (T : Type) where
  status : Nat
  body : ResponseBody T
deriving DecidableEq, Repr

/-- `impl IntoResponse for ServiceError` (src/main.rs lines 57-84). -/
def ServiceError.into_response {T : Type} : ServiceError → Response T
  | .Timeout =>
      { status := 504
        body := .errorJson "Gateway Timeout" "The request timed out" 504 }
  | .Other _ =>
      { status := 500
        body := .errorJson "Internal Server Error"
          "An internal error occurred" 500 }

/-- How axum renders the guarded handler's `Result<T, ServiceError>`:
`Ok` becomes a 200 response with the payload, `Err` goes through
`ServiceError::into_response`. -/
def handlerResponse {T : Type} : Except ServiceError T → Response T
  | .ok t => { status := 200, body := .payload t }
  | .error e => e.into_response

-- ============================================================================
-- Spec-side predicates
-- ============================================================================

/-- The spec's notion of a valid upstream URL: it parses, and the parsed
scheme is `http` or `https`. -/
def upstreamUrlOk (parse : UrlParser) (u : String) : Prop :=
  ∃ url, parse u = .ok url ∧ (url.scheme = "http" ∨ url.scheme = "https")

/-- Lowercase hexadecimal digit character, for stating the UUID format. -/
def isHexChar (c : Char) : Bool :=
  (('0' ≤ c) && (c ≤ '9')) || (('a' ≤ c) && (c ≤ 'f'))

-- ============================================================================
-- Concrete URL parsers for evaluating the claims at specific inputs
-- ============================================================================

/-- A parser behaviour under which every string parses with scheme `http`. -/
def parseAllHttp : UrlParser := fun _ => .ok ⟨"http"⟩

/-- A parser behaviour under which no string parses. -/
def parseAllFail : UrlParser := fun _ => .error "relative URL without a base"

-- ============================================================================
-- Helper lemmas about the validation loops
-- ============================================================================

theorem checkUpstream_eq_none_iff (parse : UrlParser) (n u : String) :
    checkUpstream parse n u = none ↔ upstreamUrlOk parse u := by
  unfold checkUpstream upstreamUrlOk
  cases hp : parse u with
  | error e => simp [hp]
  | ok url =>
      by_cases hs : url.scheme = "http" ∨ url.scheme = "https"
      · simp [hp, hs]
      · simp [hp, hs]

theorem checkUpstream_shape (parse : UrlParser) (n u : String)
    (e : ConfigError) (h : checkUpstream parse n u = some e) :
    ∃ r, e = ConfigError.InvalidUpstreamUrl n r := by
  unfold checkUpstream at h
  cases hp : parse u with
  | error s =>
      simp only [hp] at h
      exact ⟨_, (Option.some.inj h).symm⟩
  | ok url =>
      simp only [hp] at h
      by_cases hs : url.scheme = "http" ∨ url.scheme = "https"
      · simp [hs] at h
      · rw [if_neg hs] at h
        exact ⟨_, (Option.some.inj h).symm⟩

theorem checkUpstreams_eq_none_iff (parse : UrlParser)
    (l : List (String × String)) :
    checkUpstreams parse l = none ↔
      ∀ p ∈ l, checkUpstream parse p.1 p.2 = none := by
  induction l with
  | nil => simp [checkUpstreams]
  | cons hd tl ih =>
      obtain ⟨n, u⟩ := hd
      constructor
      · intro h p hp
        unfold checkUpstreams at h
        cases hcu : checkUpstream parse n u with
        | some e => rw [hcu] at h; exact absurd h (by simp)
        | none =>
            rw [hcu] at h
            rcases List.mem_cons.mp hp with rfl | hmem
            · exact hcu
            · exact (ih.mp h) p hmem
      · intro hall
        have h1 : checkUpstream parse n u = none :=
          hall (n, u) (List.mem_cons_self _ _)
        unfold checkUpstreams
        rw [h1]
        exact ih.mpr fun p hp => hall p (List.mem_cons_of_mem _ hp)

theorem checkUpstreams_first_error (parse : UrlParser)
    (l : List (String × String))
    (hbad : ∃ p ∈ l, checkUpstream parse p.1 p.2 ≠ none) :
    ∃ n u r, (n, u) ∈ l ∧
      checkUpstream parse n u = some (.InvalidUpstreamUrl n r) ∧
      checkUpstreams parse l = some (.InvalidUpstreamUrl n r) := by
  induction l with
  | nil => obtain ⟨p, hp, -⟩ := hbad; cases hp
  | cons hd tl ih =>
      obtain ⟨n, u⟩ := hd
      cases hcu : checkUpstream parse n u with
      | some e =>
          obtain ⟨r, rfl⟩ := checkUpstream_shape parse n u e hcu
          refine ⟨n, u, r, List.mem_cons_self _ _, hcu, ?_⟩
          unfold checkUpstreams
          rw [hcu]
      | none =>
          obtain ⟨p, hp, hpbad⟩ := hbad
          rcases List.mem_cons.mp hp with rfl | hmem
          · exact absurd hcu hpbad
          · obtain ⟨n2, u2, r2, hmem2, hcu2, hres2⟩ := ih ⟨p, hmem, hpbad⟩
            refine ⟨n2, u2, r2, List.mem_cons_of_mem _ hmem2, hcu2, ?_⟩
            unfold checkUpstreams
            rw [hcu]
            exact hres2

theorem checkCorsOrigin_shape (parse : UrlParser) (o : String)
    (e : ConfigError) (h : checkCorsOrigin parse o = some e) :
    ∃ m, e = ConfigError.InvalidCorsOrigin m := by
  unfold checkCorsOrigin at h
  by_cases he : o.isEmpty
  · rw [if_pos he] at h
    exact ⟨_, (Option.some.inj h).symm⟩
  · rw [if_neg he] at h
    by_cases hstar : o ≠ "*"
    · rw [if_pos hstar] at h
      cases hp : parse o with
      | error s =>
          rw [hp] at h
          exact ⟨_, (Option.some.inj h).symm⟩
      | ok url => rw [hp] at h; exact absurd h (by simp)
    · rw [if_neg hstar] at h
      exact absurd h (by simp)

theorem checkCorsOrigins_eq_none_iff (parse : UrlParser) (l : List String) :
    checkCorsOrigins parse l = none ↔
      ∀ o ∈ l, checkCorsOrigin parse o = none := by
  induction l with
  | nil => simp [checkCorsOrigins]
  | cons hd tl ih =>
      constructor
      · intro h o ho
        unfold checkCorsOrigins at h
        cases hco : checkCorsOrigin parse hd with
        | some e => rw [hco] at h; exact absurd h (by simp)
        | none =>
            rw [hco] at h
            rcases List.mem_cons.mp ho with rfl | hmem
            · exact hco
            · exact (ih.mp h) o hmem
      · intro hall
        have h1 : checkCorsOrigin parse hd = none :=
          hall hd (List.mem_cons_self _ _)
        unfold checkCorsOrigins
        rw [h1]
        exact ih.mpr fun o ho => hall o (List.mem_cons_of_mem _ ho)

theorem checkCorsOrigins_first_error (parse : UrlParser) (l : List String)
    (hbad : ∃ o ∈ l, checkCorsOrigin parse o ≠ none) :
    ∃ m, checkCorsOrigins parse l = some (.InvalidCorsOrigin m) := by
  induction l with
  | nil => obtain ⟨o, ho, -⟩ := hbad; cases ho
  | cons hd tl ih =>
      cases hco : checkCorsOrigin parse hd with
      | some e =>
          obtain ⟨m, rfl⟩ := checkCorsOrigin_shape parse hd e hco
          refine ⟨m, ?_⟩
          unfold checkCorsOrigins
          rw [hco]
      | none =>
          obtain ⟨o, ho, hobad⟩ := hbad
          rcases List.mem_cons.mp ho with rfl | hmem
          · exact absurd hco hobad
          · obtain ⟨m, hres⟩ := ih ⟨o, hmem, hobad⟩
            refine ⟨m, ?_⟩
            unfold checkCorsOrigins
            rw [hco]
            exact hres

-- ============================================================================
-- Helper lemmas about validate_and_convert
-- ============================================================================

theorem validate_ok_of (parse : UrlParser) (raw : AppConfigRaw)
    (hp : raw.port ≠ 0)
    (ht : ¬(raw.request_timeout_ms = 0 ∨ raw.request_timeout_ms > 300000))
    (hu : checkUpstreams parse raw.upstreams = none)
    (hc : checkCorsOrigins parse raw.cors_origins = none) :
    validate_and_convert parse raw =
      .ok ⟨raw.host, raw.port, raw.request_timeout_ms,
           raw.upstreams, raw.cors_origins⟩ := by
  unfold validate_and_convert
  rw [if_neg hp, if_neg ht, hu, hc]

theorem validate_error_shape (parse : UrlParser) (raw : AppConfigRaw)
    (e : ConfigError) (h : validate_and_convert parse raw = .error e) :
    (raw.port = 0 ∧ e = .InvalidPort raw.port) ∨
    (raw.port ≠ 0 ∧
      (raw.request_timeout_ms = 0 ∨ raw.request_timeout_ms > 300000) ∧
      e = .InvalidTimeout raw.request_timeout_ms) ∨
    (raw.port ≠ 0 ∧
      ¬(raw.request_timeout_ms = 0 ∨ raw.request_timeout_ms > 300000) ∧
      checkUpstreams parse raw.upstreams = some e) ∨
    (raw.port ≠ 0 ∧
      ¬(raw.request_timeout_ms = 0 ∨ raw.request_timeout_ms > 300000) ∧
      checkUpstreams parse raw.upstreams = none ∧
      checkCorsOrigins parse raw.cors_origins = some e) := by
  unfold validate_and_convert at h
  by_cases hp : raw.port = 0
  · rw [if_pos hp] at h
    exact Or.inl ⟨hp, (Except.error.inj h).symm⟩
  · rw [if_neg hp] at h
    by_cases ht : raw.request_timeout_ms = 0 ∨ raw.request_timeout_ms > 300000
    · rw [if_pos ht] at h
      exact Or.inr (Or.inl ⟨hp, ht, (Except.error.inj h).symm⟩)
    · rw [if_neg ht] at h
      cases hu : checkUpstreams parse raw.upstreams with
      | some e2 =>
          simp only [hu] at h
          have he : e2 = e := Except.error.inj h
          exact Or.inr (Or.inr (Or.inl ⟨hp, ht, by rw [he]⟩))
      | none =>
          simp only [hu] at h
          cases hc : checkCorsOrigins parse raw.cors_origins with
          | some e2 =>
              simp only [hc] at h
              have he : e2 = e := Except.error.inj h
              exact Or.inr (Or.inr (Or.inr ⟨hp, ht, rfl, by rw [he]⟩))
          | none => simp only [hc] at h; exact absurd h (by simp)

theorem checkUpstreams_shape (parse : UrlParser) (l : List (String × String))
    (e : ConfigError) (h : checkUpstreams parse l = some e) :
    ∃ n r, e = ConfigError.InvalidUpstreamUrl n r := by
  induction l with
  | nil => simp [checkUpstreams] at h
  | cons hd tl ih =>
      obtain ⟨n, u⟩ := hd
      unfold checkUpstreams at h
      cases hcu : checkUpstream parse n u with
      | some e2 =>
          rw [hcu] at h
          obtain ⟨r, hr⟩ := checkUpstream_shape parse n u e2 hcu
          exact ⟨n, r, (Option.some.inj h) ▸ hr⟩
      | none => rw [hcu] at h; exact ih h

theorem checkCorsOrigins_shape (parse : UrlParser) (l : List String)
    (e : ConfigError) (h : checkCorsOrigins parse l = some e) :
    ∃ m, e = ConfigError.InvalidCorsOrigin m := by
  induction l with
  | nil => simp [checkCorsOrigins] at h
  | cons hd tl ih =>
      unfold checkCorsOrigins at h
      cases hco : checkCorsOrigin parse hd with
      | some e2 =>
          rw [hco] at h
          obtain ⟨m, hm⟩ := checkCorsOrigin_shape parse hd e2 hco
          exact ⟨m, (Option.some.inj h) ▸ hm⟩
      | none => rw [hco] at h; exact ih h

-- ============================================================================
-- Claim theorems
-- ============================================================================

/-- C3: for every raw configuration, validation fails with `InvalidPort` if
and only if `port = 0`, and for every port in `[1, 65535]` validation
succeeds provided the remaining fields are valid. -/
theorem port_validation_spec (parse : UrlParser) (raw : AppConfigRaw) :
    (raw.port = 0 →
      validate_and_convert parse raw = .error (.InvalidPort raw.port)) ∧
    (∀ p, validate_and_convert parse raw = .error (.InvalidPort p) →
      raw.port = 0 ∧ p = raw.port) ∧
    (1 ≤ raw.port → raw.port ≤ 65535 →
      1 ≤ raw.request_timeout_ms → raw.request_timeout_ms ≤ 300000 →
      (∀ q ∈ raw.upstreams, upstreamUrlOk parse q.2) →
      (∀ o ∈ raw.cors_origins, checkCorsOrigin parse o = none) →
      validate_and_convert parse raw =
        .ok ⟨raw.host, raw.port, raw.request_timeout_ms, raw.upstreams,
             raw.cors_origins⟩) := by
  refine ⟨?_, ?_, ?_⟩
  · intro hp
    unfold validate_and_convert
    rw [if_pos hp]
  · intro p h
    rcases validate_error_shape parse raw _ h with
      ⟨hp, he⟩ | ⟨-, -, he⟩ | ⟨-, -, hu⟩ | ⟨-, -, -, hc⟩
    · exact ⟨hp, by injection he⟩
    · exact absurd he (by simp)
    · obtain ⟨n, r, hr⟩ := checkUpstreams_shape parse _ _ hu
      exact absurd hr (by simp)
    · obtain ⟨m, hm⟩ := checkCorsOrigins_shape parse _ _ hc
      exact absurd hm (by simp)
  · intro h1 _ h3 h4 hu hc
    exact validate_ok_of parse raw (by omega) (by omega)
      ((checkUpstreams_eq_none_iff parse _).mpr fun q hq =>
        (checkUpstream_eq_none_iff parse q.1 q.2).mpr (hu q hq))
      ((checkCorsOrigins_eq_none_iff parse _).mpr hc)

/-- C3 witness: the default configuration has port 3000 and all other
fields valid, and validates successfully. -/
theorem port_validation_spec_witness :
    validate_and_convert parseAllHttp defaultRaw =
      .ok ⟨"", 3000, 15000, [], ["*"]⟩ :=
  (port_validation_spec parseAllHttp defaultRaw).2.2
    (by decide) (by decide) (by decide) (by decide)
    (by intro q hq; cases hq)
    (by decide)

/-- C4: holding port, upstreams and CORS origins valid, validation returns
`InvalidTimeout` if and only if `request_timeout_ms = 0` or
`request_timeout_ms > 300000`; the boundary values 1 and 300000 validate
successfully. -/
theorem timeout_validation_spec (parse : UrlParser) (raw : AppConfigRaw)
    (hp : raw.port ≠ 0)
    (hu : ∀ q ∈ raw.upstreams, upstreamUrlOk parse q.2)
    (hc : ∀ o ∈ raw.cors_origins, checkCorsOrigin parse o = none) :
    ((raw.request_timeout_ms = 0 ∨ raw.request_timeout_ms > 300000) ↔
      validate_and_convert parse raw =
        .error (.InvalidTimeout raw.request_timeout_ms)) ∧
    ((raw.request_timeout_ms = 1 ∨ raw.request_timeout_ms = 300000) →
      validate_and_convert parse raw =
        .ok ⟨raw.host, raw.port, raw.request_timeout_ms, raw.upstreams,
             raw.cors_origins⟩) := by
  constructor
  · constructor
    · intro ht
      unfold validate_and_convert
      rw [if_neg hp, if_pos ht]
    · intro h
      rcases validate_error_shape parse raw _ h with
        ⟨-, he⟩ | ⟨-, ht, -⟩ | ⟨-, -, hup⟩ | ⟨-, -, -, hco⟩
      · exact absurd he (by simp)
      · exact ht
      · obtain ⟨n, r, hr⟩ := checkUpstreams_shape parse _ _ hup
        exact absurd hr (by simp)
      · obtain ⟨m, hm⟩ := checkCorsOrigins_shape parse _ _ hco
        exact absurd hm (by simp)
  · intro h1
    exact validate_ok_of parse raw hp (by omega)
      ((checkUpstreams_eq_none_iff parse _).mpr fun q hq =>
        (checkUpstream_eq_none_iff parse q.1 q.2).mpr (hu q hq))
      ((checkCorsOrigins_eq_none_iff parse _).mpr hc)

/-- C4 witness: a configuration with `request_timeout_ms = 0` and all other
fields valid is rejected with `InvalidTimeout 0`. -/
theorem timeout_validation_spec_witness :
    validate_and_convert parseAllHttp ⟨"", 3000, 0, [], ["*"]⟩ =
      .error (.InvalidTimeout 0) :=
  ((timeout_validation_spec parseAllHttp ⟨"", 3000, 0, [], ["*"]⟩
      (by decide) (by intro q hq; cases hq) (by decide)).1).mp
    (Or.inl rfl)

/-- C9: with no file and no environment values every field takes its
built-in default (`host = ""`, `port = 3000`, `request_timeout_ms = 15000`,
`cors_origins = ["*"]`, `upstreams = {}`), the defaults validate as-is, and
`addr` renders `"0.0.0.0:port"` for an empty host and `"host:port"`
otherwise. -/
theorem defaults_and_addr_spec (parse : UrlParser) (c : AppConfig) :
    validate_and_convert parse defaultRaw =
      .ok ⟨"", 3000, 15000, [], ["*"]⟩ ∧
    defaultRaw.host = "" ∧ defaultRaw.port = 3000 ∧
    defaultRaw.request_timeout_ms = 15000 ∧
    defaultRaw.cors_origins = ["*"] ∧ defaultRaw.upstreams = [] ∧
    (c.host = "" → c.addr = "0.0.0.0:" ++ toString c.port) ∧
    (c.host ≠ "" → c.addr = c.host ++ ":" ++ toString c.port) := by
  refine ⟨rfl, rfl, rfl, rfl, rfl, rfl, ?_, ?_⟩
  · intro h
    unfold AppConfig.addr
    rw [if_pos ((String.isEmpty_iff _).mpr h)]
  · intro h
    unfold AppConfig.addr
    rw [if_neg fun hb => h ((String.isEmpty_iff _).mp hb)]

/-- C9 witness: address rendering evaluated at an empty and a non-empty
host. -/
theorem defaults_and_addr_spec_witness :
    (⟨"", 3000, 15000, [], ["*"]⟩ : AppConfig).addr = "0.0.0.0:3000" ∧
    (⟨"example.com", 3000, 15000, [], ["*"]⟩ : AppConfig).addr =
      "example.com:3000" := by
  constructor
  · rw [(defaults_and_addr_spec parseAllHttp
      ⟨"", 3000, 15000, [], ["*"]⟩).2.2.2.2.2.2.1 rfl]
    decide
  · rw [(defaults_and_addr_spec parseAllHttp
      ⟨"example.com", 3000, 15000, [], ["*"]⟩).2.2.2.2.2.2.2 (by decide)]
    decide

/-- C5: an upstream entry whose URL fails to parse, or parses with a scheme
other than http/https, makes validation fail with `InvalidUpstreamUrl`
naming a failing service (the first such entry in iteration order); when
every upstream URL parses with scheme http/https and the other fields are
valid, validation succeeds. -/
theorem upstream_validation_spec (parse : UrlParser) (raw : AppConfigRaw)
    (hp : raw.port ≠ 0)
    (ht : ¬(raw.request_timeout_ms = 0 ∨ raw.request_timeout_ms > 300000)) :
    ((∃ q ∈ raw.upstreams, ¬ upstreamUrlOk parse q.2) →
      ∃ n u r, (n, u) ∈ raw.upstreams ∧ ¬ upstreamUrlOk parse u ∧
        validate_and_convert parse raw =
          .error (.InvalidUpstreamUrl n r)) ∧
    ((∀ q ∈ raw.upstreams, upstreamUrlOk parse q.2) →
      (∀ o ∈ raw.cors_origins, checkCorsOrigin parse o = none) →
      validate_and_convert parse raw =
        .ok ⟨raw.host, raw.port, raw.request_timeout_ms, raw.upstreams,
             raw.cors_origins⟩) := by
  constructor
  · intro hbad
    have hbad2 : ∃ q ∈ raw.upstreams, checkUpstream parse q.1 q.2 ≠ none := by
      obtain ⟨q, hq, hb⟩ := hbad
      exact ⟨q, hq, fun hn =>
        hb ((checkUpstream_eq_none_iff parse q.1 q.2).mp hn)⟩
    obtain ⟨n, u, r, hmem, hcu, hres⟩ :=
      checkUpstreams_first_error parse _ hbad2
    refine ⟨n, u, r, hmem, ?_, ?_⟩
    · intro hok
      rw [(checkUpstream_eq_none_iff parse n u).mpr hok] at hcu
      simp at hcu
    · unfold validate_and_convert
      rw [if_neg hp, if_neg ht, hres]
  · intro hu hc
    exact validate_ok_of parse raw hp ht
      ((checkUpstreams_eq_none_iff parse _).mpr fun q hq =>
        (checkUpstream_eq_none_iff parse q.1 q.2).mpr (hu q hq))
      ((checkCorsOrigins_eq_none_iff parse _).mpr hc)

/-- C5 witness: one upstream whose URL does not parse is rejected with
`InvalidUpstreamUrl` naming it. -/
theorem upstream_validation_spec_witness :
    ∃ n u r, (n, u) ∈ ([("svc", "bad url")] : List (String × String)) ∧
      ¬ upstreamUrlOk parseAllFail u ∧
      validate_and_convert parseAllFail
          ⟨"", 3000, 15000, [("svc", "bad url")], ["*"]⟩ =
        .error (.InvalidUpstreamUrl n r) :=
  (upstream_validation_spec parseAllFail
      ⟨"", 3000, 15000, [("svc", "bad url")], ["*"]⟩
      (by decide) (by decide)).1
    ⟨("svc", "bad url"), by simp,
      by rintro ⟨url, hurl, -⟩; simp [parseAllFail] at hurl⟩

/-- C6: holding the other fields valid — an empty CORS origin entry makes
validation fail with `InvalidCorsOrigin`; any failing entry does; the
literal "*" always passes the per-origin check; any other non-empty value
passes iff it parses as a URL; and a list whose entries all pass validates
successfully. -/
theorem cors_validation_spec (parse : UrlParser) (raw : AppConfigRaw)
    (hp : raw.port ≠ 0)
    (ht : ¬(raw.request_timeout_ms = 0 ∨ raw.request_timeout_ms > 300000))
    (hu : ∀ q ∈ raw.upstreams, upstreamUrlOk parse q.2) :
    ("" ∈ raw.cors_origins →
      ∃ m, validate_and_convert parse raw = .error (.InvalidCorsOrigin m)) ∧
    ((∃ o ∈ raw.cors_origins, checkCorsOrigin parse o ≠ none) →
      ∃ m, validate_and_convert parse raw = .error (.InvalidCorsOrigin m)) ∧
    checkCorsOrigin parse "*" = none ∧
    (∀ o : String, o ≠ "" → o ≠ "*" →
      (checkCorsOrigin parse o = none ↔ ∃ url, parse o = .ok url)) ∧
    ((∀ o ∈ raw.cors_origins, checkCorsOrigin parse o = none) →
      validate_and_convert parse raw =
        .ok ⟨raw.host, raw.port, raw.request_timeout_ms, raw.upstreams,
             raw.cors_origins⟩) := by
  have huN : checkUpstreams parse raw.upstreams = none :=
    (checkUpstreams_eq_none_iff parse _).mpr fun q hq =>
      (checkUpstream_eq_none_iff parse q.1 q.2).mpr (hu q hq)
  have hfail : (∃ o ∈ raw.cors_origins, checkCorsOrigin parse o ≠ none) →
      ∃ m, validate_and_convert parse raw =
        .error (.InvalidCorsOrigin m) := by
    intro hbad
    obtain ⟨m, hres⟩ := checkCorsOrigins_first_error parse _ hbad
    refine ⟨m, ?_⟩
    unfold validate_and_convert
    rw [if_neg hp, if_neg ht, huN, hres]
  refine ⟨?_, hfail, ?_, ?_, ?_⟩
  · intro hmem
    have he : checkCorsOrigin parse "" =
        some (.InvalidCorsOrigin "CORS origin cannot be empty") := rfl
    exact hfail ⟨"", hmem, by rw [he]; simp⟩
  · rfl
  · intro o h1 h2
    unfold checkCorsOrigin
    rw [if_neg fun hb => h1 ((String.isEmpty_iff o).mp hb), if_pos h2]
    cases hp2 : parse o with
    | error e => simp
    | ok url => simp
  · intro hc
    exact validate_ok_of parse raw hp ht huN
      ((checkCorsOrigins_eq_none_iff parse _).mpr hc)

/-- C6 witness: a non-parsing CORS origin is rejected with
`InvalidCorsOrigin` while the other fields are valid. -/
theorem cors_validation_spec_witness :
    ∃ m, validate_and_convert parseAllFail
        ⟨"", 3000, 15000, [], ["bad origin"]⟩ =
      .error (.InvalidCorsOrigin m) :=
  (cors_validation_spec parseAllFail ⟨"", 3000, 15000, [], ["bad origin"]⟩
      (by decide) (by decide) (by intro q hq; cases hq)).2.1
    ⟨"bad origin", by simp, by decide⟩

/-- C7 counterexample: with `cors_origins = [""]` the returned error is
`InvalidCorsOrigin "CORS origin cannot be empty"` — a fixed message, not
the offending origin value `""`. -/
theorem cors_error_payload_counterexample :
    validate_and_convert parseAllFail ⟨"", 3000, 15000, [], [""]⟩ =
      .error (.InvalidCorsOrigin "CORS origin cannot be empty") ∧
    "CORS origin cannot be empty" ≠ "" :=
  ⟨rfl, by decide⟩

/-- C7 amended: a failing CORS origin yields `InvalidCorsOrigin` carrying a
descriptive message — the fixed text `"CORS origin cannot be empty"` for an
empty origin, or `"Invalid origin URL: "` followed by the URL parse error
for any other failing origin — rather than the origin value itself. -/
theorem cors_error_message_spec (parse : UrlParser) (o : String) :
    (o = "" →
      checkCorsOrigin parse o =
        some (.InvalidCorsOrigin "CORS origin cannot be empty")) ∧
    (∀ e, o ≠ "" → o ≠ "*" → parse o = .error e →
      checkCorsOrigin parse o =
        some (.InvalidCorsOrigin ("Invalid origin URL: " ++ e))) := by
  constructor
  · intro h
    subst h
    rfl
  · intro e h1 h2 hpe
    unfold checkCorsOrigin
    rw [if_neg fun hb => h1 ((String.isEmpty_iff o).mp hb), if_pos h2]
    simp [hpe]

/-- C7 amended witness: a failing origin's error message is the parse error
prefixed with "Invalid origin URL: ", not the origin. -/
theorem cors_error_message_spec_witness :
    checkCorsOrigin parseAllFail "http//bad" =
      some (.InvalidCorsOrigin
        ("Invalid origin URL: " ++ "relative URL without a base")) :=
  (cors_error_message_spec parseAllFail "http//bad").2
    "relative URL without a base" (by decide) (by decide) rfl

-- ============================================================================
-- UUID rendering lemmas
-- ============================================================================

theorem isHexChar_hexDigit_mod (n : Nat) :
    isHexChar (hexDigit (n % 16)) = true := by
  have h : n % 16 < 16 := Nat.mod_lt n (by norm_num)
  have hall : ∀ m < 16, isHexChar (hexDigit m) = true := by decide
  exact hall _ h

theorem uuidV4ToString_data (r : Nat) :
    (uuidV4ToString r).data =
      [hexDigit (uuidByte r 0 / 16 % 16), hexDigit (uuidByte r 0 % 16),
       hexDigit (uuidByte r 1 / 16 % 16), hexDigit (uuidByte r 1 % 16),
       hexDigit (uuidByte r 2 / 16 % 16), hexDigit (uuidByte r 2 % 16),
       hexDigit (uuidByte r 3 / 16 % 16), hexDigit (uuidByte r 3 % 16),
       '-',
       hexDigit (uuidByte r 4 / 16 % 16), hexDigit (uuidByte r 4 % 16),
       hexDigit (uuidByte r 5 / 16 % 16), hexDigit (uuidByte r 5 % 16),
       '-',
       hexDigit ((uuidByte r 6 % 16 + 64) / 16 % 16),
       hexDigit ((uuidByte r 6 % 16 + 64) % 16),
       hexDigit (uuidByte r 7 / 16 % 16), hexDigit (uuidByte r 7 % 16),
       '-',
       hexDigit ((uuidByte r 8 % 64 + 128) / 16 % 16),
       hexDigit ((uuidByte r 8 % 64 + 128) % 16),
       hexDigit (uuidByte r 9 / 16 % 16), hexDigit (uuidByte r 9 % 16),
       '-',
       hexDigit (uuidByte r 10 / 16 % 16), hexDigit (uuidByte r 10 % 16),
       hexDigit (uuidByte r 11 / 16 % 16), hexDigit (uuidByte r 11 % 16),
       hexDigit (uuidByte r 12 / 16 % 16), hexDigit (uuidByte r 12 % 16),
       hexDigit (uuidByte r 13 / 16 % 16), hexDigit (uuidByte r 13 % 16),
       hexDigit (uuidByte r 14 / 16 % 16), hexDigit (uuidByte r 14 % 16),
       hexDigit (uuidByte r 15 / 16 % 16), hexDigit (uuidByte r 15 % 16)]
    := rfl

/-- C1 counterexample: a request with a present-but-empty x-request-id
header has the empty string stored and echoed — not a freshly generated
identifier. -/
theorem request_id_empty_header_counterexample :
    request_id_middleware (some []) (uuidV4ToString 0) =
      ⟨"", ""⟩ ∧
    (request_id_middleware (some []) (uuidV4ToString 0)).responseHeaderId ≠
      uuidV4ToString 0 := by
  exact ⟨rfl, by decide⟩

/-- C1 amended: a request whose x-request-id header is present and decodes
as a string has that string — even the empty string — reused verbatim as
the id stored in the request extensions and echoed on the response; a
request without the header receives the freshly generated identifier in
both places. -/
theorem request_id_reuse_verbatim (bytes : List Nat) (freshId s : String) :
    (headerToStr bytes = some s →
      request_id_middleware (some bytes) freshId = ⟨s, s⟩) ∧
    request_id_middleware none freshId = ⟨freshId, freshId⟩ := by
  constructor
  · intro h
    simp [request_id_middleware, h]
  · rfl

/-- C1 amended witness: header value "abc" (bytes 97 98 99) is echoed
verbatim. -/
theorem request_id_reuse_verbatim_witness :
    headerToStr [97, 98, 99] = some "abc" ∧
    request_id_middleware (some [97, 98, 99]) "unused" =
      ⟨"abc", "abc"⟩ := by
  have h : headerToStr [97, 98, 99] = some "abc" := by decide
  exact ⟨h, (request_id_reuse_verbatim [97, 98, 99] "unused" "abc").1 h⟩

/-- C10: when the x-request-id header is present but its bytes are not all
visible ASCII (so `HeaderValue::to_str` fails), the middleware behaves as
if the header were absent: the fresh identifier is stored in the context
and written onto the response, and the client bytes are not echoed. -/
theorem nonascii_header_fresh_id (bytes : List Nat) (freshId : String)
    (h : bytes.all isVisibleAscii = false) :
    headerToStr bytes = none ∧
    request_id_middleware (some bytes) freshId = ⟨freshId, freshId⟩ := by
  have hn : headerToStr bytes = none := by simp [headerToStr, h]
  exact ⟨hn, by simp [request_id_middleware, hn]⟩

/-- C10 witness: a header containing the NUL byte is not visible ASCII and
yields the fresh identifier. -/
theorem nonascii_header_fresh_id_witness :
    headerToStr [0] = none ∧
    request_id_middleware (some [0]) "fresh-id" =
      ⟨"fresh-id", "fresh-id"⟩ :=
  nonascii_header_fresh_id [0] "fresh-id" (by decide)

/-- C2: a handler exceeding the deadline yields HTTP 504 with the exact
JSON envelope and its late value is never returned; a handler finishing
within the deadline passes through unchanged. -/
theorem timeout_guard_spec {T : Type} (d : Nat) (f : TimedFuture T) :
    (f.completionTime > d →
      with_timeout d f = .error .Timeout ∧
      handlerResponse (with_timeout d f) =
        ⟨504, .errorJson "Gateway Timeout" "The request timed out" 504⟩ ∧
      ∀ t, with_timeout d f ≠ .ok t) ∧
    (f.completionTime ≤ d →
      with_timeout d f = .ok f.value ∧
      handlerResponse (with_timeout d f) = ⟨200, .payload f.value⟩) := by
  constructor
  · intro hgt
    have hto : with_timeout d f = .error .Timeout := by
      unfold with_timeout tokioTimeout
      rw [if_neg (by omega)]
      rfl
    exact ⟨hto, by rw [hto]; rfl, fun t h => by rw [hto] at h; cases h⟩
  · intro hle
    have hok : with_timeout d f = .ok f.value := by
      unfold with_timeout tokioTimeout
      rw [if_pos hle]
      rfl
    exact ⟨hok, by rw [hok]; rfl⟩

/-- C2 witness: a 10ms handler under a 5ms deadline yields the 504 envelope;
a 10ms handler under a 10ms deadline passes through. -/
theorem timeout_guard_spec_witness :
    handlerResponse (with_timeout 5 (⟨10, "late"⟩ : TimedFuture String)) =
      ⟨504, .errorJson "Gateway Timeout" "The request timed out" 504⟩ ∧
    with_timeout 10 (⟨10, "done"⟩ : TimedFuture String) = .ok "done" :=
  ⟨((timeout_guard_spec 5 ⟨10, "late"⟩).1 (by norm_num)).2.1,
   ((timeout_guard_spec 10 ⟨10, "done"⟩).2 (by norm_num)).1⟩

/-- C8: a request without an x-request-id header gets an id (stored and
echoed) that is the canonical rendering of a version-4 UUID: 36 characters,
hyphens at positions 8, 13, 18 and 23, version nibble '4' at position 14,
every other character a lowercase hex digit. -/
theorem generated_id_uuid_format (r : Nat) :
    (request_id_middleware none (uuidV4ToString r)).contextId =
      uuidV4ToString r ∧
    (request_id_middleware none (uuidV4ToString r)).responseHeaderId =
      uuidV4ToString r ∧
    (uuidV4ToString r).length = 36 ∧
    (uuidV4ToString r).data[8]? = some '-' ∧
    (uuidV4ToString r).data[13]? = some '-' ∧
    (uuidV4ToString r).data[18]? = some '-' ∧
    (uuidV4ToString r).data[23]? = some '-' ∧
    (uuidV4ToString r).data[14]? = some '4' ∧
    ((uuidV4ToString r).data.all fun c => isHexChar c || c == '-') =
      true := by
  refine ⟨rfl, rfl, ?_, ?_, ?_, ?_, ?_, ?_, ?_⟩
  · show (uuidV4ToString r).data.length = 36
    rw [uuidV4ToString_data]
    rfl
  · rw [uuidV4ToString_data]
    rfl
  · rw [uuidV4ToString_data]
    rfl
  · rw [uuidV4ToString_data]
    rfl
  · rw [uuidV4ToString_data]
    rfl
  · rw [uuidV4ToString_data]
    have h6 : (uuidByte r 6 % 16 + 64) / 16 % 16 = 4 := by omega
    rw [h6]
    rfl
  · rw [uuidV4ToString_data]
    simp [isHexChar_hexDigit_mod]

end Gateway
